import Mathlib

/-!
Shallow embedding of the flash-sale post generator (`src/main.py`,
class `FlashSalePostGenerator`) together with proofs of the spec's
claims about it.

External effects are made explicit:
* HTTP calls are modelled by an outcome value (status plus body, or a
  timeout / exception constructor) passed in as a parameter;
* the BigQuery warehouse is modelled by an oracle
  `String → Except String (List RawRow)`;
* the current time is passed in as a parameter;
* functions that in Python perform network calls additionally return an
  instrumentation trace (queries executed, link requests issued, payloads
  posted) so that claims of the form "no network call is made" are
  statable as equalities on the trace.

Python truthiness on strings (empty string is falsy) and on `dict.get`
results (`None` is falsy) is modelled explicitly where the source relies
on it.
-/

namespace FlashSale

/-- Required column names checked by `validate_query_columns`
(`src/main.py:102-110`). -/
def required_columns : List String :=
  ["sf_vehicle_name",
   "ajans_vehicle_id",
   "published_at",
   "car_make",
   "car_model",
   "car_year",
   "kilometrage"]

/-- Python's `str.lower()`, character by character. `String.toLower`
itself is not used because its implementation is opaque to the kernel;
this version maps `Char.toLower` over the characters, which agrees with
Python on the ASCII column names and queries at issue here. -/
def pyToLower (s : String) : String :=
  String.mk (s.data.map Char.toLower)

/-- Python's substring test `needle in hay` on strings, as a Bool. -/
def strContainsSub (hay needle : String) : Bool :=
  decide (needle.data <:+: hay.data)

/-- Embedding of `FlashSalePostGenerator.validate_query_columns`
(`src/main.py:97-122`): lowercase the query, collect every required
column name whose lowercase form does not occur as a substring, and
report validity as "no missing columns". -/
def validate_query_columns (query : String) : Bool × List String :=
  let query_lower := pyToLower query
  let missing_columns :=
    required_columns.filter (fun c => !(strContainsSub query_lower (pyToLower c)))
  (missing_columns.length == 0, missing_columns)

/-- C3: for every query string, `validate_query_columns` returns as
missing exactly those of the seven required column names that do not
occur case-insensitively as a substring of the query, and `valid` is
true iff `missing` is empty. -/
theorem validate_query_columns_spec (query : String) :
    (∀ c, c ∈ (validate_query_columns query).2 ↔
      c ∈ required_columns ∧ ¬ ((pyToLower c).data <:+: (pyToLower query).data)) ∧
    ((validate_query_columns query).1 = true ↔
      (validate_query_columns query).2 = []) := by
  constructor
  · intro c
    simp [validate_query_columns, List.mem_filter, strContainsSub]
  · simp only [validate_query_columns, beq_iff_eq, List.length_eq_zero]

/-- Concrete instantiation of `validate_query_columns_spec`: on the query
"select sf_vehicle_name from t" the column `car_make` is reported
missing. -/
theorem validate_query_columns_spec_witness :
    "car_make" ∈ (validate_query_columns "select sf_vehicle_name from t").2 := by
  exact (validate_query_columns_spec "select sf_vehicle_name from t").1
    "car_make" |>.2 ⟨by decide, by decide⟩

/-- A raw warehouse row as the dataframe loop at `src/main.py:208-218`
sees it. Nullable columns (`pd.isna` checks in the source) are `Option`;
the numeric columns carry exact rationals standing for the numeric
values BigQuery returns. `published_at` is an opaque token carried
through unchanged. -/
structure RawRow where
  sf_vehicle_name : String
  ajans_vehicle_id : String
  car_make : Option String
  car_model : Option String
  car_year : Option ℚ
  kilometrage : Option ℚ
  published_at : String

/-- A normalized car record (the `car_data` dict built at
`src/main.py:209-217`). -/
structure CarRecord where
  sf_vehicle_name : String
  ajans_vehicle_id : String
  make : String
  model : String
  year : Int
  kilometers : Int
  published_at : String

/-- Python's `int()` on a numeric value: truncation toward zero. -/
def truncRat (q : ℚ) : Int :=
  if 0 ≤ q then ⌊q⌋ else ⌈q⌉

/-- Embedding of the per-row normalization at `src/main.py:209-217`:
copy the identifiers and `published_at`, default a null make/model to
"Unknown", default a null year/kilometrage to 0 and truncate present
numeric values with `int()`. -/
def normalizeRow (row : RawRow) : CarRecord :=
  { sf_vehicle_name := row.sf_vehicle_name
    ajans_vehicle_id := row.ajans_vehicle_id
    make := match row.car_make with
      | some s => s
      | none => "Unknown"
    model := match row.car_model with
      | some s => s
      | none => "Unknown"
    year := match row.car_year with
      | some q => truncRat q
      | none => 0
    kilometers := match row.kilometrage with
      | some q => truncRat q
      | none => 0
    published_at := row.published_at }

/-- The row loop of `get_flash_sale_cars` (`src/main.py:207-218`). -/
def normalizeRows (rows : List RawRow) : List CarRecord :=
  rows.map normalizeRow

/-- The default built-in query (`src/main.py:182-193`). -/
def default_query : String :=
  "SELECT DISTINCT a.car_name as sf_vehicle_name,\n" ++
  "a.vehicle_id as ajans_vehicle_id,\n" ++
  "DATE(a.log_date) AS published_at,\n" ++
  "b.car_make,\n" ++
  "b.car_model,\n" ++
  "b.car_year,\n" ++
  "b.kilometrage\n" ++
  "FROM ajans_dealers.wholesale_vehicle_activity_logs a\n" ++
  "LEFT JOIN reporting.vehicle_acquisition_to_selling b ON a.car_name = b.car_name\n" ++
  "WHERE DATE(log_date) = current_date() AND status_before = \"created\" AND status_after = \"published\""

/-- Result of `get_flash_sale_cars`, instrumented: `cars` is the return
value, `executed` lists the queries actually sent to the warehouse,
`reportedMissing` the missing columns shown to the user, and
`validated` the queries that were run through the column validator. -/
structure FetchOutcome where
  cars : List CarRecord
  executed : List String
  reportedMissing : List String
  validated : List String

/-- Running one query against the warehouse oracle (the `try` block at
`src/main.py:196-227`): an exception from the client yields an empty
list, a successful result is normalized row by row. -/
def runQuery (exec : String → Except String (List RawRow)) (q : String)
    (validatedList : List String) : FetchOutcome :=
  match exec q with
  | .ok rows =>
      { cars := normalizeRows rows, executed := [q],
        reportedMissing := [], validated := validatedList }
  | .error _ =>
      { cars := [], executed := [q],
        reportedMissing := [], validated := validatedList }

/-- Embedding of `FlashSalePostGenerator.get_flash_sale_cars`
(`src/main.py:159-227`). The Python guard `if custom_query:` is string
truthiness: both `None` and the empty string select the default query,
and only a non-empty custom query is validated. -/
def get_flash_sale_cars (exec : String → Except String (List RawRow))
    (custom_query : Option String) : FetchOutcome :=
  match custom_query with
  | some q =>
      if q = "" then
        runQuery exec default_query []
      else
        let v := validate_query_columns q
        if v.1 then
          runQuery exec q [q]
        else
          { cars := [], executed := [], reportedMissing := v.2, validated := [q] }
  | none => runQuery exec default_query []

/-- A calendar date, standing for `datetime.now()` at the moment of the
call. -/
structure Date where
  year : Nat
  month : Nat
  day : Nat

/-- Left-pad the decimal representation of `n` with zeros to width `w`. -/
def padZeros (w n : Nat) : String :=
  String.mk (List.replicate (w - (toString n).length) '0') ++ toString n

/-- Embedding of `strftime("%Y%m%d")` for common-era dates: four-digit
zero-padded year followed by two-digit month and day. -/
def fmtYYYYMMDD (d : Date) : String :=
  padZeros 4 d.year ++ padZeros 2 d.month ++ padZeros 2 d.day

/-- The tracking-link request body built at `src/main.py:243-255`. -/
structure TrackPayload where
  link_name : String
  final_link : String
  sender_id : String
  domain : String
  deeplink : Bool

/-- Embedding of the request-construction half of
`FlashSalePostGenerator.create_tracking_link` (`src/main.py:243-255`). -/
def buildTrackingRequest (today : Date) (vehicle_name ajans_vehicle_id : String) :
    TrackPayload :=
  { link_name := "flashsale-" ++ fmtYYYYMMDD today ++ "-" ++ vehicle_name
    final_link := "sylndr://car-details/" ++ ajans_vehicle_id
    sender_id := "6eb7c941-13b9-4eb3-8402-5310e2bc0f8e"
    domain := "elajans.link"
    deeplink := true }

/-- The JSON body of a tracking-link response, restricted to the three
keys the client inspects; `none` models an absent key (`dict.get`
returning `None`). -/
structure TrackResponse where
  tracking_link : Option String
  link : Option String
  url : Option String

/-- Outcome of the tracking-link POST at `src/main.py:259`: an HTTP
response with a status code and JSON body, a timeout or other
`requests` exception, or any other exception. -/
inductive TrackResult where
  | response (status : Nat) (body : TrackResponse)
  | timeout
  | requestError
  | otherError

/-- Python truthiness of an optional string: `None` and `""` are falsy. -/
def pyTruthy : Option String → Bool
  | none => false
  | some s => !(s == "")

/-- Python's `a or b` on optional strings: the left value if truthy,
otherwise the right value. -/
def pyOrStr (a b : Option String) : Option String :=
  if pyTruthy a then a else b

/-- Embedding of `FlashSalePostGenerator.create_tracking_link`
(`src/main.py:229-284`): build the request, then interpret the outcome
of the single POST. On status 200 the link is
`response_data.get('tracking_link') or response_data.get('link') or
response_data.get('url')`, used only if truthy; every other path
returns the fallback sentinel. A `requests` timeout is caught by the
`RequestException` handler and, like both exception handlers, returns
the same fallback. -/
def create_tracking_link (today : Date) (vehicle_name ajans_vehicle_id : String)
    (respond : TrackPayload → TrackResult) : String :=
  let payload := buildTrackingRequest today vehicle_name ajans_vehicle_id
  match respond payload with
  | .response status body =>
      if status = 200 then
        let tl := pyOrStr (pyOrStr body.tracking_link body.link) body.url
        if pyTruthy tl then tl.getD "elajans.link" else "elajans.link"
      else
        "elajans.link"
  | .timeout => "elajans.link"
  | .requestError => "elajans.link"
  | .otherError => "elajans.link"

/-- Truncation toward zero: `truncRat q` never grows in absolute value
and is within one of `q`. -/
lemma truncRat_abs (q : ℚ) :
    |(truncRat q : ℚ)| ≤ |q| ∧ |q| < |(truncRat q : ℚ)| + 1 := by
  unfold truncRat
  by_cases h : 0 ≤ q
  · rw [if_pos h]
    have h1 : ((⌊q⌋ : ℚ)) ≤ q := Int.floor_le q
    have h2 : q < ⌊q⌋ + 1 := Int.lt_floor_add_one q
    have h3 : (0 : ℚ) ≤ ((⌊q⌋ : ℤ) : ℚ) := by exact_mod_cast Int.floor_nonneg.mpr h
    rw [abs_of_nonneg h, abs_of_nonneg h3]
    exact ⟨h1, h2⟩
  · push_neg at h
    rw [if_neg (not_le.mpr h)]
    have h1 : q ≤ (⌈q⌉ : ℚ) := Int.le_ceil q
    have h2 : (⌈q⌉ : ℚ) < q + 1 := Int.ceil_lt_add_one q
    have h3' : (⌈q⌉ : ℤ) ≤ 0 := Int.ceil_le.mpr (by exact_mod_cast h.le)
    have h3 : ((⌈q⌉ : ℤ) : ℚ) ≤ 0 := by exact_mod_cast h3'
    rw [abs_of_neg h, abs_of_nonpos h3]
    constructor <;> linarith

/-- C6: normalization copies `sf_vehicle_name` and `ajans_vehicle_id`
verbatim, substitutes "Unknown" for a null make or model, substitutes 0
for a null year or kilometrage, truncates present numeric values toward
zero to an integer, carries `published_at` through unchanged, and maps a
zero-row input to the empty sequence. -/
theorem normalize_row_spec :
    (∀ row : RawRow,
      (normalizeRow row).sf_vehicle_name = row.sf_vehicle_name ∧
      (normalizeRow row).ajans_vehicle_id = row.ajans_vehicle_id ∧
      (normalizeRow row).published_at = row.published_at ∧
      (row.car_make = none → (normalizeRow row).make = "Unknown") ∧
      (∀ s, row.car_make = some s → (normalizeRow row).make = s) ∧
      (row.car_model = none → (normalizeRow row).model = "Unknown") ∧
      (∀ s, row.car_model = some s → (normalizeRow row).model = s) ∧
      (row.car_year = none → (normalizeRow row).year = 0) ∧
      (∀ q, row.car_year = some q → (normalizeRow row).year = truncRat q) ∧
      (row.kilometrage = none → (normalizeRow row).kilometers = 0) ∧
      (∀ q, row.kilometrage = some q → (normalizeRow row).kilometers = truncRat q)) ∧
    (∀ q : ℚ, |(truncRat q : ℚ)| ≤ |q| ∧ |q| < |(truncRat q : ℚ)| + 1) ∧
    normalizeRows [] = [] := by
  refine ⟨?_, truncRat_abs, rfl⟩
  intro row
  refine ⟨rfl, rfl, rfl, ?_, ?_, ?_, ?_, ?_, ?_, ?_, ?_⟩
  · intro h; simp [normalizeRow, h]
  · intro s h; simp [normalizeRow, h]
  · intro h; simp [normalizeRow, h]
  · intro s h; simp [normalizeRow, h]
  · intro h; simp [normalizeRow, h]
  · intro q h; simp [normalizeRow, h]
  · intro h; simp [normalizeRow, h]
  · intro q h; simp [normalizeRow, h]

/-- Concrete instantiation of `normalize_row_spec`: a row with null make
and a fractional year normalizes to "Unknown" and the truncated year. -/
theorem normalize_row_spec_witness :
    (normalizeRow ⟨"ABC123", "v1", none, some "Corolla", some (4041/2 : ℚ),
        none, "2026-10-12"⟩).make = "Unknown" ∧
    (normalizeRow ⟨"ABC123", "v1", none, some "Corolla", some (4041/2 : ℚ),
        none, "2026-10-12"⟩).year = truncRat (4041/2 : ℚ) := by
  exact ⟨(normalize_row_spec.1 _).2.2.2.1 rfl,
    (normalize_row_spec.1 _).2.2.2.2.2.2.2.2.1 (4041/2 : ℚ) rfl⟩

/-- C8 counterexample: with the custom query `""` (which fails column
validation — all seven names are missing), `get_flash_sale_cars` does
not report anything, executes the default query against the warehouse,
and returns its non-empty result: Python's `if custom_query:` treats the
empty string like an absent query. -/
theorem get_flash_sale_cars_empty_query_cex :
    (validate_query_columns "").1 = false ∧
    (get_flash_sale_cars
      (fun _ => .ok [⟨"A", "v", some "Toyota", some "Corolla",
        some (2020 : ℚ), some (50000 : ℚ), "d"⟩]) (some "")).executed
      = [default_query] ∧
    (get_flash_sale_cars
      (fun _ => .ok [⟨"A", "v", some "Toyota", some "Corolla",
        some (2020 : ℚ), some (50000 : ℚ), "d"⟩]) (some "")).reportedMissing
      = [] ∧
    (get_flash_sale_cars
      (fun _ => .ok [⟨"A", "v", some "Toyota", some "Corolla",
        some (2020 : ℚ), some (50000 : ℚ), "d"⟩]) (some "")).cars.length
      = 1 := by
  exact ⟨by decide, rfl, rfl, rfl⟩

/-- C8 (amended): for every non-empty custom query that fails column
validation, `get_flash_sale_cars` reports exactly the missing columns,
executes nothing against the warehouse, and returns an empty result; a
supplied empty-string query is treated like an absent one; when no
custom query is supplied the default built-in query is executed without
being validated. -/
theorem get_flash_sale_cars_contract
    (exec : String → Except String (List RawRow)) :
    (∀ q, q ≠ "" → (validate_query_columns q).1 = false →
      get_flash_sale_cars exec (some q)
        = { cars := [], executed := [],
            reportedMissing := (validate_query_columns q).2,
            validated := [q] }) ∧
    get_flash_sale_cars exec (some "") = get_flash_sale_cars exec none ∧
    (get_flash_sale_cars exec none).validated = [] ∧
    (get_flash_sale_cars exec none).executed = [default_query] := by
  refine ⟨?_, rfl, ?_, ?_⟩
  · intro q hq hv
    simp [get_flash_sale_cars, hq, hv]
  · cases h : exec default_query <;> simp [get_flash_sale_cars, runQuery, h]
  · cases h : exec default_query <;> simp [get_flash_sale_cars, runQuery, h]

/-- Concrete instantiation of `get_flash_sale_cars_contract`: the custom
query "x" is non-empty and invalid, so nothing is executed and the
result is empty. -/
theorem get_flash_sale_cars_contract_witness :
    get_flash_sale_cars (fun _ => .ok []) (some "x")
      = { cars := [], executed := [],
          reportedMissing := (validate_query_columns "x").2,
          validated := ["x"] } := by
  exact (get_flash_sale_cars_contract _).1 "x" (by decide) (by decide)

/-- C9: the link name sent in the tracking-link request is exactly
"flashsale-" ++ the current date formatted YYYYMMDD ++ "-" ++ the
vehicle name; in particular it does not depend on the vehicle id, so
two invocations for the same vehicle on the same calendar day request
the same link name. -/
theorem buildTrackingRequest_link_name (today : Date)
    (vehicle_name id₁ id₂ : String) :
    (buildTrackingRequest today vehicle_name id₁).link_name
      = "flashsale-" ++ fmtYYYYMMDD today ++ "-" ++ vehicle_name ∧
    (buildTrackingRequest today vehicle_name id₁).link_name
      = (buildTrackingRequest today vehicle_name id₂).link_name := by
  exact ⟨rfl, rfl⟩

/-- C1: `create_tracking_link` always returns a string (it is a total
function of the call outcome): any non-200 response, timeout, request
exception or other exception yields exactly "elajans.link"; a 200
response in which none of the three link keys holds a truthy value
yields "elajans.link"; and a 200 response whose body maps
`tracking_link` to a non-empty string X yields X. -/
theorem create_tracking_link_spec (today : Date)
    (vehicle_name ajans_vehicle_id : String)
    (respond : TrackPayload → TrackResult) :
    (∀ status body,
      respond (buildTrackingRequest today vehicle_name ajans_vehicle_id)
          = .response status body →
      status ≠ 200 →
      create_tracking_link today vehicle_name ajans_vehicle_id respond
        = "elajans.link") ∧
    (respond (buildTrackingRequest today vehicle_name ajans_vehicle_id)
        = .timeout →
      create_tracking_link today vehicle_name ajans_vehicle_id respond
        = "elajans.link") ∧
    (respond (buildTrackingRequest today vehicle_name ajans_vehicle_id)
        = .requestError →
      create_tracking_link today vehicle_name ajans_vehicle_id respond
        = "elajans.link") ∧
    (respond (buildTrackingRequest today vehicle_name ajans_vehicle_id)
        = .otherError →
      create_tracking_link today vehicle_name ajans_vehicle_id respond
        = "elajans.link") ∧
    (∀ body,
      respond (buildTrackingRequest today vehicle_name ajans_vehicle_id)
          = .response 200 body →
      pyTruthy body.tracking_link = false →
      pyTruthy body.link = false →
      pyTruthy body.url = false →
      create_tracking_link today vehicle_name ajans_vehicle_id respond
        = "elajans.link") ∧
    (∀ body x,
      respond (buildTrackingRequest today vehicle_name ajans_vehicle_id)
          = .response 200 body →
      body.tracking_link = some x →
      x ≠ "" →
      create_tracking_link today vehicle_name ajans_vehicle_id respond = x) := by
  refine ⟨?_, ?_, ?_, ?_, ?_, ?_⟩
  · intro status body h hs
    simp [create_tracking_link, h, hs]
  · intro h; simp [create_tracking_link, h]
  · intro h; simp [create_tracking_link, h]
  · intro h; simp [create_tracking_link, h]
  · intro body h h1 h2 h3
    simp [create_tracking_link, h, pyOrStr, h1, h2, h3]
  · intro body x h hx hne
    have htr : pyTruthy body.tracking_link = true := by
      simp [pyTruthy, hx, hne]
    simp [create_tracking_link, h, pyOrStr, htr, hx,
      Option.getD, pyTruthy, hne]

/-- Concrete instantiation of `create_tracking_link_spec`: a 200
response carrying tracking_link "https://t.co/1" yields that link, and
a timeout yields the fallback. -/
theorem create_tracking_link_spec_witness :
    create_tracking_link ⟨2026, 10, 12⟩ "ABC123" "v1"
      (fun _ => .response 200 ⟨some "https://t.co/1", none, none⟩)
      = "https://t.co/1" ∧
    create_tracking_link ⟨2026, 10, 12⟩ "ABC123" "v1" (fun _ => .timeout)
      = "elajans.link" := by
  exact ⟨(create_tracking_link_spec ⟨2026, 10, 12⟩ "ABC123" "v1"
      (fun _ => .response 200 ⟨some "https://t.co/1", none, none⟩)).2.2.2.2.2
      ⟨some "https://t.co/1", none, none⟩ "https://t.co/1" rfl rfl (by decide),
    (create_tracking_link_spec ⟨2026, 10, 12⟩ "ABC123" "v1"
      (fun _ => .timeout)).2.1 rfl⟩

/-- C10: on a 200 response whose `tracking_link` value is falsy (absent
or the empty string), the chained `or` falls through: a truthy `link`
value wins, otherwise a truthy `url` value wins, otherwise the fallback
sentinel is returned — presence of a key alone does not win. -/
theorem create_tracking_link_falsy_fallthrough (today : Date)
    (vehicle_name ajans_vehicle_id : String)
    (respond : TrackPayload → TrackResult) (body : TrackResponse)
    (h : respond (buildTrackingRequest today vehicle_name ajans_vehicle_id)
      = .response 200 body)
    (htl : pyTruthy body.tracking_link = false) :
    (∀ y, body.link = some y → y ≠ "" →
      create_tracking_link today vehicle_name ajans_vehicle_id respond = y) ∧
    (pyTruthy body.link = false →
      ∀ z, body.url = some z → z ≠ "" →
        create_tracking_link today vehicle_name ajans_vehicle_id respond = z) ∧
    (pyTruthy body.link = false → pyTruthy body.url = false →
      create_tracking_link today vehicle_name ajans_vehicle_id respond
        = "elajans.link") := by
  have e1 : pyOrStr body.tracking_link body.link = body.link := by
    simp [pyOrStr, htl]
  refine ⟨?_, ?_, ?_⟩
  · intro y hy hne
    have hl : pyTruthy body.link = true := by simp [pyTruthy, hy, hne]
    have e2 : pyOrStr body.link body.url = body.link := by
      simp [pyOrStr, hl]
    simp [create_tracking_link, h, e1, e2, hl]
    simp [hy]
  · intro hl z hz hne
    have hu : pyTruthy body.url = true := by simp [pyTruthy, hz, hne]
    have e2 : pyOrStr body.link body.url = body.url := by
      simp [pyOrStr, hl]
    simp [create_tracking_link, h, e1, e2, hu]
    simp [hz]
  · intro hl hu
    have e2 : pyOrStr body.link body.url = body.url := by
      simp [pyOrStr, hl]
    simp [create_tracking_link, h, e1, e2, hu]

/-- Concrete instantiation of `create_tracking_link_falsy_fallthrough`:
tracking_link present but empty, `link` carrying "https://t.co/2" — the
client returns "https://t.co/2". -/
theorem create_tracking_link_falsy_fallthrough_witness :
    create_tracking_link ⟨2026, 10, 12⟩ "ABC123" "v1"
      (fun _ => .response 200 ⟨some "", some "https://t.co/2", none⟩)
      = "https://t.co/2" := by
  exact (create_tracking_link_falsy_fallthrough ⟨2026, 10, 12⟩ "ABC123" "v1"
    (fun _ => .response 200 ⟨some "", some "https://t.co/2", none⟩)
    ⟨some "", some "https://t.co/2", none⟩ rfl (by decide)).1
    "https://t.co/2" rfl (by decide)

/-- A Python value as it can occur in the `car_data` dict handed to the
renderer: the fields relevant to formatting are either strings or
integers. -/
inductive PyVal where
  | str (s : String)
  | int (n : Int)

/-- Python's `str()` on such a value. -/
def pyStr : PyVal → String
  | .str s => s
  | .int n => toString n

/-- The `car_data` dict as `generate_post_content` reads it. -/
structure CarDict where
  sf_vehicle_name : String
  make : PyVal
  model : PyVal
  year : PyVal
  kilometers : PyVal

/-- Split a list into chunks of three (used on the reversed digit list
for thousands grouping). -/
def chunk3 : List Char → List (List Char)
  | [] => []
  | [a] => [[a]]
  | [a, b] => [[a, b]]
  | a :: b :: c :: rest => [a, b, c] :: chunk3 rest

/-- Python's format spec `{n:,}` on an integer: decimal digits grouped
in threes by commas from the right, with a leading minus sign for
negative values. -/
def formatThousands (n : Int) : String :=
  let ds := (toString n.natAbs).data.reverse
  let grouped := List.intercalate [','] (chunk3 ds)
  (if n < 0 then "-" else "") ++ String.mk grouped.reverse

/-- Python's evaluation of the `{kilometers:,}` placeholder: succeeds
with grouped digits on an integer, raises `ValueError` (modelled as
`Except.error`) when the value is a string, since the comma format spec
is not allowed for `str`. -/
def formatComma : PyVal → Except String String
  | .int n => .ok (formatThousands n)
  | .str _ => .error "Cannot specify comma format spec with str"

/-- `POST_TEMPLATE` (`src/main.py:78-81`) with all five placeholders
substituted. -/
def postTemplateFill (make model year km tracking_link : String) : String :=
  "🚗 " ++ make ++ " " ++ model ++ " - " ++ year ++ " - " ++ km ++
  " كم\nدلوقتي نزلت على التطبيق بسعر خاص لمدة 36 ساعة بس!\n" ++
  "📋 التقرير المفصل متوفر على التطبيق.\n📲 شوفها هنا: " ++ tracking_link

/-- The fallback post produced by the `except` handler at
`src/main.py:304-307`. -/
def fallbackPost (car : CarDict) (tracking_link : String) : String :=
  "🔥 Flash Sale! " ++ pyStr car.make ++ " " ++ pyStr car.model ++ " " ++
  pyStr car.year ++ " - " ++ tracking_link

/-- Embedding of `FlashSalePostGenerator.generate_post_content`
(`src/main.py:286-307`): fill `POST_TEMPLATE`; if evaluating the
`{kilometers:,}` placeholder raises, return the one-line fallback post
instead. (`{make}`, `{model}` and `{year}` are bare placeholders and
format any value with `str()`, so only the comma spec can raise here.) -/
def generate_post_content (car : CarDict) (tracking_link : String) : String :=
  match formatComma car.kilometers with
  | .ok km =>
      postTemplateFill (pyStr car.make) (pyStr car.model) (pyStr car.year)
        km tracking_link
  | .error _ => fallbackPost car tracking_link

/-- C7: `generate_post_content` is total: with an integer kilometers
value it fills the fixed template with make, model, year, comma-grouped
kilometers and the tracking link; when the placeholder evaluation
raises (string kilometers value) it returns the one-line fallback
message, which contains the make, the model, the year and the tracking
link as substrings. -/
theorem generate_post_content_spec (car : CarDict) (tracking_link : String) :
    (∀ n, car.kilometers = .int n →
      generate_post_content car tracking_link
        = postTemplateFill (pyStr car.make) (pyStr car.model)
            (pyStr car.year) (formatThousands n) tracking_link) ∧
    (∀ s, car.kilometers = .str s →
      generate_post_content car tracking_link = fallbackPost car tracking_link ∧
      (pyStr car.make).data <:+: (generate_post_content car tracking_link).data ∧
      (pyStr car.model).data <:+: (generate_post_content car tracking_link).data ∧
      (pyStr car.year).data <:+: (generate_post_content car tracking_link).data ∧
      tracking_link.data <:+: (generate_post_content car tracking_link).data) := by
  constructor
  · intro n hn
    simp [generate_post_content, formatComma, hn]
  · intro s hs
    have he : generate_post_content car tracking_link
        = fallbackPost car tracking_link := by
      simp [generate_post_content, formatComma, hs]
    refine ⟨he, ?_, ?_, ?_, ?_⟩
    · refine ⟨"🔥 Flash Sale! ".data,
        (" " ++ pyStr car.model ++ " " ++ pyStr car.year ++ " - " ++
          tracking_link).data, ?_⟩
      rw [he]
      simp [fallbackPost, String.data_append, List.append_assoc]
    · refine ⟨("🔥 Flash Sale! " ++ pyStr car.make ++ " ").data,
        (" " ++ pyStr car.year ++ " - " ++ tracking_link).data, ?_⟩
      rw [he]
      simp [fallbackPost, String.data_append, List.append_assoc]
    · refine ⟨("🔥 Flash Sale! " ++ pyStr car.make ++ " " ++
        pyStr car.model ++ " ").data, (" - " ++ tracking_link).data, ?_⟩
      rw [he]
      simp [fallbackPost, String.data_append, List.append_assoc]
    · refine ⟨("🔥 Flash Sale! " ++ pyStr car.make ++ " " ++
        pyStr car.model ++ " " ++ pyStr car.year ++ " - ").data, [], ?_⟩
      rw [he]
      simp [fallbackPost, String.data_append, List.append_assoc]

/-- Concrete instantiation of `generate_post_content_spec`: the scenario
record (Toyota Corolla, 2020, 50000 km) renders through the template
with "50,000", and a string-valued kilometers field falls back to the
one-line post. -/
theorem generate_post_content_spec_witness :
    generate_post_content ⟨"ABC123", .str "Toyota", .str "Corolla",
        .int 2020, .int 50000⟩ "https://t.co/1"
      = postTemplateFill "Toyota" "Corolla" "2020" (formatThousands 50000)
          "https://t.co/1" ∧
    formatThousands 50000 = "50,000" ∧
    generate_post_content ⟨"ABC123", .str "Toyota", .str "Corolla",
        .int 2020, .str "n/a"⟩ "https://t.co/1"
      = fallbackPost ⟨"ABC123", .str "Toyota", .str "Corolla",
          .int 2020, .str "n/a"⟩ "https://t.co/1" := by
  refine ⟨?_, by decide, ?_⟩
  · exact (generate_post_content_spec ⟨"ABC123", .str "Toyota", .str "Corolla",
      .int 2020, .int 50000⟩ "https://t.co/1").1 50000 rfl
  · exact ((generate_post_content_spec ⟨"ABC123", .str "Toyota", .str "Corolla",
      .int 2020, .str "n/a"⟩ "https://t.co/1").2 "n/a" rfl).1

/-- A generated post (the `post_data` dict at `src/main.py:355-365`). -/
structure PostRecord where
  car_id : String
  ajans_vehicle_id : String
  make : String
  model : String
  year : Int
  kilometers : Int
  tracking_link : String
  post_content : String
  generated_at : String

/-- View a normalized `CarRecord` as the dict the renderer receives:
make and model are strings, year and kilometers are integers. -/
def toDict (car : CarRecord) : CarDict :=
  { sf_vehicle_name := car.sf_vehicle_name
    make := .str car.make
    model := .str car.model
    year := .int car.year
    kilometers := .int car.kilometers }

/-- Loop state of `generate_posts` (`src/main.py:324-326`), instrumented
with `linkRequests`: the arguments of every call made to the tracking
link client. -/
structure GenState where
  posts : List PostRecord
  successful_posts : Nat
  failed_posts : Nat
  linkRequests : List (String × String)

/-- The loop state before the first iteration. -/
def startGenState : GenState :=
  { posts := [], successful_posts := 0, failed_posts := 0, linkRequests := [] }

/-- One iteration of the per-car loop at `src/main.py:328-375`: skip
(counting a failure) on unknown make or model, then skip on a missing
`ajans_vehicle_id`; otherwise call the tracking-link client (abstracted
as `linkFn`), render the content, and append the assembled post while
counting a success. -/
def processCar (linkFn : String → String → String) (now : String)
    (st : GenState) (car : CarRecord) : GenState :=
  if car.make = "Unknown" ∨ car.model = "Unknown" then
    { st with failed_posts := st.failed_posts + 1 }
  else if car.ajans_vehicle_id = "" then
    { st with failed_posts := st.failed_posts + 1 }
  else
    let tracking_link := linkFn car.sf_vehicle_name car.ajans_vehicle_id
    let post_content := generate_post_content (toDict car) tracking_link
    { posts := st.posts ++
        [{ car_id := car.sf_vehicle_name
           ajans_vehicle_id := car.ajans_vehicle_id
           make := car.make
           model := car.model
           year := car.year
           kilometers := car.kilometers
           tracking_link := tracking_link
           post_content := post_content
           generated_at := now }]
      successful_posts := st.successful_posts + 1
      failed_posts := st.failed_posts
      linkRequests := st.linkRequests ++
        [(car.sf_vehicle_name, car.ajans_vehicle_id)] }

/-- Embedding of the loop of `FlashSalePostGenerator.generate_posts`
(`src/main.py:309-384`), after the cars have been fetched: an empty
fetch returns immediately, otherwise each record is processed in
order. -/
def generate_posts (linkFn : String → String → String) (now : String)
    (cars : List CarRecord) : GenState :=
  if cars.isEmpty then startGenState
  else cars.foldl (processCar linkFn now) startGenState

/-- C2: a record with make "Unknown", or model "Unknown", or an empty
`ajans_vehicle_id` only increments the failure counter: the iteration
issues no tracking-link request and appends no post, and the loop
continues with the remaining records from that state. -/
theorem generate_posts_skip (linkFn : String → String → String) (now : String)
    (pre post : List CarRecord) (car : CarRecord)
    (h : car.make = "Unknown" ∨ car.model = "Unknown" ∨
      car.ajans_vehicle_id = "") :
    (∀ st : GenState, processCar linkFn now st car
      = { st with failed_posts := st.failed_posts + 1 }) ∧
    generate_posts linkFn now (pre ++ car :: post)
      = List.foldl (processCar linkFn now)
          (let st := List.foldl (processCar linkFn now) startGenState pre
           { st with failed_posts := st.failed_posts + 1 }) post := by
  have hstep : ∀ st : GenState, processCar linkFn now st car
      = { st with failed_posts := st.failed_posts + 1 } := by
    intro st
    rcases h with h | h | h
    · simp [processCar, h]
    · simp [processCar, h]
    · by_cases hmm : car.make = "Unknown" ∨ car.model = "Unknown"
      · simp [processCar, hmm]
      · simp [processCar, hmm, h]
  refine ⟨hstep, ?_⟩
  have hne : (pre ++ car :: post).isEmpty = false := by
    simp [List.isEmpty_iff]
  rw [generate_posts, hne]
  simp only [Bool.false_eq_true, if_false, List.foldl_append, List.foldl_cons,
    hstep]

/-- Concrete instantiation of `generate_posts_skip`: a single record
with make "Unknown" produces no post and no link request, and counts
one failure. -/
theorem generate_posts_skip_witness :
    generate_posts (fun _ _ => "L") "t"
      [⟨"A", "v1", "Unknown", "Corolla", 2020, 50000, "d"⟩]
      = { posts := [], successful_posts := 0, failed_posts := 1,
          linkRequests := [] } := by
  exact (generate_posts_skip (fun _ _ => "L") "t" [] []
    ⟨"A", "v1", "Unknown", "Corolla", 2020, 50000, "d"⟩ (Or.inl rfl)).2

/-- Outcome of the webhook POST at `src/main.py:414-422`. -/
inductive HttpResult where
  | response (status : Nat)
  | timeout
  | requestError
  | otherError

/-- A value stored in the flat webhook payload dict. -/
inductive PayloadVal where
  | nat (n : Nat)
  | str (s : String)
  | post (p : PostRecord)

/-- Embedding of the payload construction at `src/main.py:397-408`: a
flat mapping (modelled as an association list in insertion order) with
the three metadata entries followed by one entry per post, keyed
`post_1 .. post_N` in batch order. -/
def buildWebhookPayload (posts : List PostRecord) (now : String) :
    List (String × PayloadVal) :=
  [("total_count", PayloadVal.nat posts.length),
   ("generated_at", PayloadVal.str now),
   ("source", PayloadVal.str "flash_sale_posts_generator")] ++
  posts.enum.map (fun ip => ("post_" ++ toString (ip.1 + 1), PayloadVal.post ip.2))

/-- Embedding of `FlashSalePostGenerator.send_posts_to_webhook`
(`src/main.py:386-442`): an empty batch returns `false` before any
request is built; otherwise the payload is POSTed once, success iff the
status is 200, 201 or 202, every timeout or exception yielding `false`.
The second component lists the payloads actually POSTed, so "no network
call" and "exactly one attempt" are statable. -/
def send_posts_to_webhook (posts : List PostRecord) (now : String)
    (result : HttpResult) : Bool × List (List (String × PayloadVal)) :=
  if posts.isEmpty then
    (false, [])
  else
    let payload := buildWebhookPayload posts now
    match result with
    | .response status =>
        (status == 200 || status == 201 || status == 202, [payload])
    | .timeout => (false, [payload])
    | .requestError => (false, [payload])
    | .otherError => (false, [payload])

/-- C4: on an empty batch `send_posts_to_webhook` returns `false`
having made no network call; on a non-empty batch it makes exactly one
POST attempt (carrying the built payload) and returns `true` iff the
response status is 200, 201 or 202 — any other status, timeout or
exception gives `false`, with no retry. -/
theorem send_posts_to_webhook_spec (posts : List PostRecord) (now : String)
    (result : HttpResult) :
    (posts = [] → send_posts_to_webhook posts now result = (false, [])) ∧
    (posts ≠ [] →
      (send_posts_to_webhook posts now result).2
        = [buildWebhookPayload posts now] ∧
      ((send_posts_to_webhook posts now result).1 = true ↔
        ∃ status, result = .response status ∧
          (status = 200 ∨ status = 201 ∨ status = 202))) := by
  constructor
  · intro h
    simp [send_posts_to_webhook, h]
  · intro h
    have hne : posts.isEmpty = false := by simp [List.isEmpty_iff, h]
    cases result <;> (simp [send_posts_to_webhook, hne]; try aesop)

/-- Concrete instantiation of `send_posts_to_webhook_spec`: one post
with a 201 response succeeds with exactly one attempt; an empty batch
returns `false` with no attempt. -/
theorem send_posts_to_webhook_spec_witness :
    (send_posts_to_webhook
        [⟨"A", "v1", "Toyota", "Corolla", 2020, 50000, "L", "c", "t"⟩]
        "t" (.response 201)).1 = true ∧
    send_posts_to_webhook [] "t" (.response 500) = (false, []) := by
  constructor
  · exact ((send_posts_to_webhook_spec
      [⟨"A", "v1", "Toyota", "Corolla", 2020, 50000, "L", "c", "t"⟩]
      "t" (.response 201)).2 (List.cons_ne_nil _ _)).2.mpr
      ⟨201, rfl, Or.inr (Or.inl rfl)⟩
  · exact (send_posts_to_webhook_spec [] "t" (.response 500)).1 rfl

/-- C5: for a non-empty batch of N posts the flat payload has exactly
3 + N entries: the total count equal to N, the generation timestamp and
the constant source string first, then for each i < N the entry at
position 3 + i keyed "post_(i+1)" holding the i-th post of the batch. -/
theorem buildWebhookPayload_spec (posts : List PostRecord) (now : String)
    (_hne : posts ≠ []) :
    (buildWebhookPayload posts now).length = 3 + posts.length ∧
    (buildWebhookPayload posts now)[0]?
      = some ("total_count", PayloadVal.nat posts.length) ∧
    (buildWebhookPayload posts now)[1]?
      = some ("generated_at", PayloadVal.str now) ∧
    (buildWebhookPayload posts now)[2]?
      = some ("source", PayloadVal.str "flash_sale_posts_generator") ∧
    (∀ i, i < posts.length →
      (buildWebhookPayload posts now)[i + 3]?
        = (posts[i]?).map
            (fun p => ("post_" ++ toString (i + 1), PayloadVal.post p))) := by
  refine ⟨?_, ?_, ?_, ?_, ?_⟩
  · simp [buildWebhookPayload]
    omega
  · simp [buildWebhookPayload]
  · simp [buildWebhookPayload]
  · simp [buildWebhookPayload]
  · intro i hi
    simp only [buildWebhookPayload]
    rw [List.getElem?_append_right (by simp)]
    simp [List.getElem?_map, List.getElem?_enum, Option.map_map,
      Function.comp]
    cases posts[i]? <;> simp

/-- Concrete instantiation of `buildWebhookPayload_spec`: a singleton
batch yields a four-entry payload whose last entry is keyed "post_1"
and holds the post. -/
theorem buildWebhookPayload_spec_witness :
    (buildWebhookPayload
        [⟨"A", "v1", "Toyota", "Corolla", 2020, 50000, "L", "c", "t"⟩]
        "t").length = 3 + 1 ∧
    (buildWebhookPayload
        [⟨"A", "v1", "Toyota", "Corolla", 2020, 50000, "L", "c", "t"⟩]
        "t")[0 + 3]?
      = some ("post_" ++ toString (0 + 1),
          PayloadVal.post ⟨"A", "v1", "Toyota", "Corolla", 2020, 50000,
            "L", "c", "t"⟩) := by
  constructor
  · exact (buildWebhookPayload_spec
      [⟨"A", "v1", "Toyota", "Corolla", 2020, 50000, "L", "c", "t"⟩]
      "t" (List.cons_ne_nil _ _)).1
  · exact ((buildWebhookPayload_spec
      [⟨"A", "v1", "Toyota", "Corolla", 2020, 50000, "L", "c", "t"⟩]
      "t" (List.cons_ne_nil _ _)).2.2.2.2 0 (by decide))

end FlashSale
